import Mathlib

/-!
Verification of `custom_components/olarm_sensors/config_flow.py`.

The file embeds the two flow steps of the Olarm Sensors integration:

* `OlarmSensorsConfigFlow.async_step_user` (initial setup), modelled by
  `Olarm.asyncStepUser`.  The single remote call
  `OlarmSetupApi.get_olarm_devices()` is an external collaborator; its
  outcome for the one call a submission can make is passed in as a value of
  `Olarm.ApiOutcome` (it can raise `APIForbiddenError`, return `None`, or
  return a JSON list of device records).
* `OlarmOptionsFlow.async_step_init` (options editing), modelled by
  `Olarm.asyncStepInit` / `Olarm.optionsNewData`.

Observable effects of a setup submission are collected in
`Olarm.StepOutcome`: the flow result (form, created entry, or an uncaught
Python exception), the number of `get_olarm_devices` invocations, and the
device ids registered in `hass.data[DOMAIN]`.
-/

namespace Olarm

/-- One device record of the JSON list returned by the device enumeration
(keys `deviceName`, `deviceFirmware`, `deviceId`, `deviceAlarmType`). -/
structure Device where
  deviceName : String
  deviceFirmware : String
  deviceId : String
  deviceAlarmType : String
deriving Repr, DecidableEq

/-- The submitted form of the initial setup step: `CONF_API_KEY`,
`CONF_SCAN_INTERVAL` and `CONF_ALARM_CODE`. -/
structure UserInput where
  apiKey : String
  scanInterval : Int
  alarmCode : String
deriving Repr, DecidableEq

/-- Outcome of the one `OlarmSetupApi.get_olarm_devices()` call a setup
submission can make: the call raises `APIForbiddenError`, or it returns
(`None` or a JSON list of devices). -/
inductive ApiOutcome where
  | forbidden : ApiOutcome
  | ret : Option (List Device) → ApiOutcome
deriving Repr, DecidableEq

/-- The persisted configuration record (the `data` dict of a config entry).
Fields correspond to the keys `CONF_API_KEY`, `CONF_SCAN_INTERVAL`,
`CONF_DEVICE_FIRMWARE`, `CONF_ALARM_CODE`, `CONF_OLARM_DEVICES`,
`OLARM_DEVICES`, `OLARM_DEVICE_AMOUNT` and `OLARM_DEVICE_NAMES`. -/
structure EntryData where
  apiKey : String
  scanInterval : Int
  deviceFirmware : String
  alarmCode : Option String
  olarmDevices : List String
  olarmDevicesFull : List Device
  deviceAmount : Nat
  deviceNames : List String
deriving Repr, DecidableEq

/-- The keys under which `async_step_user` records validation errors:
`CONF_API_KEY`, `CONF_SCAN_INTERVAL` and `AUTHENTICATION_ERROR`. -/
inductive ErrField where
  | apiKeyF
  | scanIntervalF
  | authF
deriving Repr, DecidableEq

/-- The `errors[AUTHENTICATION_ERROR] = "Invalid credentials!"` entry. -/
def authErr : ErrField × String := (ErrField.authF, "Invalid credentials!")

/-- A `FlowResult` as observable from the step: a re-shown form with its
error dict, a created entry, or an uncaught Python exception escaping the
step (the source can raise `UnboundLocalError` and `IndexError`). -/
inductive FlowResult where
  | showForm (errors : List (ErrField × String))
  | createEntry (title : String) (data : EntryData)
  | raiseError (exc : String)
deriving Repr, DecidableEq

/-- Observable effects of one call of `async_step_user`: its `FlowResult`,
how many times `OlarmSetupApi.get_olarm_devices` was invoked, and the
device ids stored into `hass.data[DOMAIN]` (one `OlarmCoordinator` each). -/
structure StepOutcome where
  result : FlowResult
  apiCalls : Nat
  coordinators : List String
deriving Repr, DecidableEq

/-- The hard-coded device list used when the API key is `"mock_api_key"`
or `""` (lines 79 to 92 of `config_flow.py`). -/
def mockJson : List Device :=
  [{ deviceName := "Device1", deviceFirmware := "1.0", deviceId := "123",
     deviceAlarmType := "Paradox" },
   { deviceName := "Device2", deviceFirmware := "1.1", deviceId := "124",
     deviceAlarmType := "IDS" }]

/-- The validation branch tree of lines 50 to 57: an empty API key is
falsy, a zero scan interval is falsy, and a nonzero scan interval below 8
fails the minimum check.  The error dict is modelled as an association
list in insertion order. -/
def validationErrors (u : UserInput) : List (ErrField × String) :=
  (if u.apiKey = "" then [(ErrField.apiKeyF, "API key is required.")] else []) ++
  (if u.scanInterval = 0 then
      [(ErrField.scanIntervalF, "Scan interval is required.")]
    else if u.scanInterval < 8 then
      [(ErrField.scanIntervalF, "Scan interval must be at least 8 seconds.")]
    else [])

/-- Lines 62 to 66 (and 222 to 226): the stored alarm code is `None` when
the sentinel `"1234567890"` was entered, the entered string otherwise. -/
def storeAlarmCode (code : String) : Option String :=
  if code = "1234567890" then none else some code

/-- The entry `data` dict built at lines 140 to 152 from the device list
`l` (the `temp_entry` of lines 105 to 120 carries the same fields except
`OLARM_DEVICES`). -/
def setupEntryData (u : UserInput) (l : List Device) (firmware : String) : EntryData :=
  { apiKey := u.apiKey
    scanInterval := u.scanInterval
    deviceFirmware := firmware
    alarmCode := storeAlarmCode u.alarmCode
    olarmDevices := l.map Device.deviceName
    olarmDevicesFull := l
    deviceAmount := l.length
    deviceNames := l.map Device.deviceName }

/-- Lines 94 to 152, entered with the local `json` bound to `r` (`None` or
a list), `errs` the errors recorded so far and `calls` the number of API
invocations made.  `json is None` adds the authentication error; a
non-empty error dict re-shows the form; otherwise `setup_devices` is the
list of all device names, `json[0]["deviceFirmware"]` raises `IndexError`
on an empty list, and the coordinator loop registers every device whose
name occurs in `setup_devices` before the entry is created. -/
def stepWithJson (u : UserInput) (calls : Nat) (errs : List (ErrField × String)) :
    Option (List Device) → StepOutcome
  | none =>
      { result := .showForm (errs ++ [authErr]), apiCalls := calls, coordinators := [] }
  | some [] =>
      if errs = [] then
        { result := .raiseError "IndexError", apiCalls := calls, coordinators := [] }
      else
        { result := .showForm errs, apiCalls := calls, coordinators := [] }
  | some (dev0 :: rest) =>
      if errs = [] then
        { result := .createEntry "Olarm Sensors"
            (setupEntryData u (dev0 :: rest) dev0.deviceFirmware)
          apiCalls := calls
          coordinators :=
            ((dev0 :: rest).filter
              (fun dev =>
                decide (dev.deviceName ∈ (dev0 :: rest).map Device.deviceName))).map
              Device.deviceId }
      else
        { result := .showForm errs, apiCalls := calls, coordinators := [] }

/-- The body of `async_step_user` for a submitted form (lines 48 to 152).
When `api_key not in ("mock_api_key", "")` the API is called once; on
`APIForbiddenError` the handler records the authentication error, but the
local `json` was never assigned, so the later `if json is None:` at line
94 raises `UnboundLocalError`.  Otherwise the hard-coded `mockJson` is
used with no API call. -/
def submitStep (u : UserInput) (o : ApiOutcome) : StepOutcome :=
  if u.apiKey = "mock_api_key" ∨ u.apiKey = "" then
    stepWithJson u 0 (validationErrors u) (some mockJson)
  else
    match o with
    | .forbidden =>
        { result := .raiseError "UnboundLocalError", apiCalls := 1, coordinators := [] }
    | .ret r => stepWithJson u 1 (validationErrors u) r

/-- `OlarmSensorsConfigFlow.async_step_user`: with `user_input=None` the
setup form is shown with an empty error dict and no API call is made;
with a submitted form the submission is processed by `submitStep`. -/
def asyncStepUser : Option UserInput → ApiOutcome → StepOutcome
  | none, _ => { result := .showForm [], apiCalls := 0, coordinators := [] }
  | some u, o => submitStep u o

/-- The device list the entry-creation path works on: the hard-coded
`mockJson` for a mock or empty key, the enumeration result otherwise
(`none` when no list was obtained). -/
def usedJson (u : UserInput) (o : ApiOutcome) : Option (List Device) :=
  if u.apiKey = "mock_api_key" ∨ u.apiKey = "" then some mockJson
  else
    match o with
    | .ret (some l) => some l
    | _ => none

/-- The form fields of the two schemas.  `OlarmSensorsConfigFlow._get_schema`
(lines 156 to 171) offers `CONF_API_KEY`, `CONF_SCAN_INTERVAL` and
`CONF_ALARM_CODE`; only `OlarmOptionsFlow._get_schema` (lines 197 to 215)
adds a `CONF_OLARM_DEVICES` multi-select. -/
inductive SchemaField where
  | apiKeyField
  | scanIntervalField
  | alarmCodeField
  | olarmDevicesField
deriving Repr, DecidableEq

/-- The fields of the initial setup form (lines 158 to 171). -/
def setupSchemaFields : List SchemaField :=
  [SchemaField.apiKeyField, SchemaField.scanIntervalField, SchemaField.alarmCodeField]

/-- The fields of the options form (lines 197 to 215). -/
def optionsSchemaFields : List SchemaField :=
  [SchemaField.apiKeyField, SchemaField.scanIntervalField,
   SchemaField.alarmCodeField, SchemaField.olarmDevicesField]

/-- Lines 191 to 195 of `OlarmOptionsFlow._get_schema`: the alarm-code
field defaults to `"1234567890"` when the stored code is `None`, to the
stored code otherwise. -/
def optionsAlarmDefault : Option String → String
  | none => "1234567890"
  | some c => c

/-- The submitted form of the options step: `CONF_API_KEY`,
`CONF_SCAN_INTERVAL`, `CONF_ALARM_CODE` and the `CONF_OLARM_DEVICES`
multi-select. -/
structure OptionsInput where
  apiKey : String
  scanInterval : Int
  alarmCode : String
  olarmDevices : List String
deriving Repr, DecidableEq

/-- Lines 228 to 234: `new = {**self.config_entry.data}` followed by the
five field assignments. -/
def optionsNewData (old : EntryData) (u : OptionsInput) : EntryData :=
  { old with
    alarmCode := storeAlarmCode u.alarmCode
    deviceAmount := old.deviceNames.length
    scanInterval := u.scanInterval
    apiKey := u.apiKey
    olarmDevices := u.olarmDevices }

/-- The `FlowResult` of the options step: the options form (with its
fields and the alarm-code default) or the created entry. -/
inductive OptionsResult where
  | showForm (fields : List SchemaField) (alarmDefault : String)
  | createEntry (title : String) (data : EntryData)
deriving Repr, DecidableEq

/-- `OlarmOptionsFlow.async_step_init` (lines 217 to 241): a submission
creates the entry with the rewritten data, otherwise the options form is
shown. -/
def asyncStepInit (old : EntryData) : Option OptionsInput → OptionsResult
  | none => .showForm optionsSchemaFields (optionsAlarmDefault old.alarmCode)
  | some u => .createEntry "Olarm Sensors" (optionsNewData old u)

/-- Every device of the list passes the coordinator loop's membership test
against `setup_devices` (the names of the same list), so the loop filters
nothing out. -/
lemma filter_nameMem (l : List Device) :
    l.filter (fun dev => decide (dev.deviceName ∈ l.map Device.deviceName)) = l := by
  apply List.filter_eq_self.mpr
  intro a ha
  simp only [decide_eq_true_eq, List.mem_map]
  exact ⟨a, ha, rfl⟩

/-- The continuation after the API branch reports exactly the number of
API calls it was entered with. -/
lemma stepWithJson_apiCalls (u : UserInput) (calls : Nat)
    (errs : List (ErrField × String)) (r : Option (List Device)) :
    (stepWithJson u calls errs r).apiCalls = calls := by
  cases r with
  | none => rfl
  | some l =>
    cases l with
    | nil => simp only [stepWithJson]; split <;> rfl
    | cons dev0 rest => simp only [stepWithJson]; split <;> rfl

/-- Inversion: the continuation creates an entry exactly when the error
dict is empty and the device list is a non-empty list, and then the entry
data and the registered coordinators are determined. -/
lemma stepWithJson_createEntry_inv (u : UserInput) (calls : Nat)
    (errs : List (ErrField × String)) (r : Option (List Device))
    (t : String) (d : EntryData)
    (h : (stepWithJson u calls errs r).result = .createEntry t d) :
    errs = [] ∧ t = "Olarm Sensors" ∧
    ∃ dev0 rest, r = some (dev0 :: rest) ∧
      d = setupEntryData u (dev0 :: rest) dev0.deviceFirmware ∧
      (stepWithJson u calls errs r).coordinators = (dev0 :: rest).map Device.deviceId := by
  cases r with
  | none => simp [stepWithJson] at h
  | some l =>
    cases l with
    | nil => by_cases he : errs = [] <;> simp [stepWithJson, he] at h
    | cons dev0 rest =>
      by_cases he : errs = []
      · simp only [stepWithJson, if_pos he] at h
        obtain ⟨ht, hd⟩ := FlowResult.createEntry.inj h
        refine ⟨he, ht.symm, dev0, rest, rfl, hd.symm, ?_⟩
        simp only [stepWithJson, if_pos he]
        rw [filter_nameMem]
      · simp [stepWithJson, if_neg he] at h

/-- When the error dict is non-empty, the continuation registers no
coordinator and re-shows the form with an error dict extending the
recorded one. -/
lemma stepWithJson_errs_ne (u : UserInput) (calls : Nat)
    (errs : List (ErrField × String)) (r : Option (List Device))
    (he : errs ≠ []) :
    (stepWithJson u calls errs r).coordinators = [] ∧
    ∃ extra, (stepWithJson u calls errs r).result = .showForm (errs ++ extra) := by
  cases r with
  | none => exact ⟨rfl, [authErr], rfl⟩
  | some l =>
    cases l with
    | nil => refine ⟨?_, [], ?_⟩ <;> simp [stepWithJson, he]
    | cons dev0 rest => refine ⟨?_, [], ?_⟩ <;> simp [stepWithJson, he]

/-- Inversion for a full submission: an entry is created only with an empty
validation-error dict and a non-empty device list (`usedJson`), and then
the entry data, the registered coordinators and the API call count are
determined. -/
lemma submitStep_createEntry_inv (u : UserInput) (o : ApiOutcome)
    (t : String) (d : EntryData)
    (h : (submitStep u o).result = .createEntry t d) :
    validationErrors u = [] ∧ t = "Olarm Sensors" ∧
    ∃ dev0 rest, usedJson u o = some (dev0 :: rest) ∧
      d = setupEntryData u (dev0 :: rest) dev0.deviceFirmware ∧
      (submitStep u o).coordinators = (dev0 :: rest).map Device.deviceId ∧
      (submitStep u o).apiCalls =
        (if u.apiKey = "mock_api_key" ∨ u.apiKey = "" then 0 else 1) := by
  by_cases hk : u.apiKey = "mock_api_key" ∨ u.apiKey = ""
  · have hs : submitStep u o = stepWithJson u 0 (validationErrors u) (some mockJson) := by
      simp [submitStep, hk]
    rw [hs] at h
    obtain ⟨he, ht, dev0, rest, hr, hd, hc⟩ :=
      stepWithJson_createEntry_inv _ _ _ _ _ _ h
    refine ⟨he, ht, dev0, rest, ?_, hd, ?_, ?_⟩
    · rw [← hr]; simp [usedJson, hk]
    · rw [hs]; exact hc
    · rw [hs, if_pos hk]; exact stepWithJson_apiCalls _ _ _ _
  · cases o with
    | forbidden => simp [submitStep, hk] at h
    | ret r =>
      have hs : submitStep u (ApiOutcome.ret r) = stepWithJson u 1 (validationErrors u) r := by
        simp [submitStep, hk]
      rw [hs] at h
      obtain ⟨he, ht, dev0, rest, hr, hd, hc⟩ :=
        stepWithJson_createEntry_inv _ _ _ _ _ _ h
      subst hr
      refine ⟨he, ht, dev0, rest, ?_, hd, ?_, ?_⟩
      · simp [usedJson, hk]
      · rw [hs]; exact hc
      · rw [hs, if_neg hk]; exact stepWithJson_apiCalls _ _ _ _

/-- The stored alarm code is never the sentinel itself. -/
lemma storeAlarmCode_ne_sentinel (c : String) :
    storeAlarmCode c ≠ some "1234567890" := by
  unfold storeAlarmCode
  by_cases hc : c = "1234567890" <;> simp [hc]

/-- Claim C1 (code bug): at a submission with API key `"real_key"`, scan
interval 10 and the sentinel alarm code, when the device enumeration
raises `APIForbiddenError`, `async_step_user` does not return the setup
form with the authentication error: the handler records the error, but the
unconditional `if json is None:` at line 94 then reads the local `json`,
which was never assigned, and the step raises `UnboundLocalError` (one API
call was made, no entry is created and no coordinator is registered). -/
theorem C1_forbidden_raises :
    asyncStepUser
      (some { apiKey := "real_key", scanInterval := 10, alarmCode := "1234567890" })
      ApiOutcome.forbidden =
    { result := FlowResult.raiseError "UnboundLocalError",
      apiCalls := 1, coordinators := [] } := by
  rfl

/-- Claim C2 counterexample: the submission with API key `"mock_api_key"`
creates a config entry (built from the hard-coded device list) although
`OlarmSetupApi.get_olarm_devices` is never invoked, so an entry can be
created without any successful validation call. -/
theorem C2_mock_entry_without_call :
    asyncStepUser
      (some { apiKey := "mock_api_key", scanInterval := 10, alarmCode := "0000" })
      (ApiOutcome.ret none) =
    { result := FlowResult.createEntry "Olarm Sensors"
        { apiKey := "mock_api_key", scanInterval := 10, deviceFirmware := "1.0",
          alarmCode := some "0000", olarmDevices := ["Device1", "Device2"],
          olarmDevicesFull := mockJson, deviceAmount := 2,
          deviceNames := ["Device1", "Device2"] },
      apiCalls := 0, coordinators := ["123", "124"] } := by
  rfl

/-- Claim C2 (amended): for every submission whose API key is neither
`"mock_api_key"` nor empty, `async_step_user` creates an entry only after
a successful device enumeration: exactly one `get_olarm_devices` call was
made and it returned a non-empty device list.  (For the mock or empty key
an entry is created from the hard-coded list without any remote call.) -/
theorem C2_entry_needs_successful_call (u : UserInput) (o : ApiOutcome)
    (t : String) (d : EntryData)
    (hk : ¬(u.apiKey = "mock_api_key" ∨ u.apiKey = ""))
    (h : (asyncStepUser (some u) o).result = FlowResult.createEntry t d) :
    (asyncStepUser (some u) o).apiCalls = 1 ∧
    ∃ l, o = ApiOutcome.ret (some l) ∧ l ≠ [] := by
  obtain ⟨he, ht, dev0, rest, hj, hd, hc, ha⟩ := submitStep_createEntry_inv u o t d h
  constructor
  · show (submitStep u o).apiCalls = 1
    rw [ha, if_neg hk]
  · cases o with
    | forbidden => simp [usedJson, hk] at hj
    | ret r =>
      cases r with
      | none => simp [usedJson, hk] at hj
      | some l =>
        have hl : l = dev0 :: rest := by simpa [usedJson, hk] using hj
        exact ⟨l, rfl, by simp [hl]⟩

/-- Witness for C2: a concrete non-mock submission whose enumeration
returned one device made exactly one API call. -/
theorem C2_entry_needs_successful_call_witness :
    (asyncStepUser
      (some { apiKey := "k", scanInterval := 10, alarmCode := "1234567890" })
      (ApiOutcome.ret (some [(⟨"D", "2.0", "id1", "IDS"⟩ : Device)]))).apiCalls = 1 ∧
    ∃ l, ApiOutcome.ret (some [(⟨"D", "2.0", "id1", "IDS"⟩ : Device)]) =
        ApiOutcome.ret (some l) ∧ l ≠ [] :=
  C2_entry_needs_successful_call
    { apiKey := "k", scanInterval := 10, alarmCode := "1234567890" }
    (ApiOutcome.ret (some [(⟨"D", "2.0", "id1", "IDS"⟩ : Device)]))
    "Olarm Sensors"
    { apiKey := "k", scanInterval := 10, deviceFirmware := "2.0",
      alarmCode := none, olarmDevices := ["D"],
      olarmDevicesFull := [(⟨"D", "2.0", "id1", "IDS"⟩ : Device)],
      deviceAmount := 1, deviceNames := ["D"] }
    (by decide) (by rfl)

/-- Claim C3 counterexample: the initial setup form has no device-selection
field at all, and a concrete successful submission persists as
`CONF_OLARM_DEVICES` the names of all discovered devices (the full
hard-coded list), not a user-chosen subset. -/
theorem C3_no_selection_in_setup :
    SchemaField.olarmDevicesField ∉ setupSchemaFields ∧
    (asyncStepUser
      (some { apiKey := "mock_api_key", scanInterval := 9, alarmCode := "1111" })
      (ApiOutcome.ret none)).result =
      FlowResult.createEntry "Olarm Sensors"
        { apiKey := "mock_api_key", scanInterval := 9, deviceFirmware := "1.0",
          alarmCode := some "1111", olarmDevices := ["Device1", "Device2"],
          olarmDevicesFull := mockJson, deviceAmount := 2,
          deviceNames := ["Device1", "Device2"] } ∧
    ["Device1", "Device2"] = mockJson.map Device.deviceName := by
  exact ⟨by decide, by rfl, by rfl⟩

/-- Claim C3 (amended): the initial setup step offers no device selection
(its schema has only the API key, scan interval and alarm code fields);
every created entry persists as `CONF_OLARM_DEVICES` the names of all
devices of the enumeration result, and a coordinator is registered for
every one of them.  Only the options flow offers a device multi-select. -/
theorem C3_setup_takes_all_devices (u : UserInput) (o : ApiOutcome)
    (t : String) (d : EntryData)
    (h : (asyncStepUser (some u) o).result = FlowResult.createEntry t d) :
    SchemaField.olarmDevicesField ∉ setupSchemaFields ∧
    SchemaField.olarmDevicesField ∈ optionsSchemaFields ∧
    d.olarmDevices = d.olarmDevicesFull.map Device.deviceName ∧
    (asyncStepUser (some u) o).coordinators = d.olarmDevicesFull.map Device.deviceId := by
  obtain ⟨he, ht, dev0, rest, hj, hd, hc, ha⟩ := submitStep_createEntry_inv u o t d h
  subst hd
  exact ⟨by decide, by decide, rfl, hc⟩

/-- Witness for C3: the amended statement at a concrete mock submission. -/
theorem C3_setup_takes_all_devices_witness :
    SchemaField.olarmDevicesField ∉ setupSchemaFields ∧
    SchemaField.olarmDevicesField ∈ optionsSchemaFields ∧
    ({ apiKey := "mock_api_key", scanInterval := 8, deviceFirmware := "1.0",
       alarmCode := none, olarmDevices := ["Device1", "Device2"],
       olarmDevicesFull := mockJson, deviceAmount := 2,
       deviceNames := ["Device1", "Device2"] } : EntryData).olarmDevices =
      (({ apiKey := "mock_api_key", scanInterval := 8, deviceFirmware := "1.0",
          alarmCode := none, olarmDevices := ["Device1", "Device2"],
          olarmDevicesFull := mockJson, deviceAmount := 2,
          deviceNames := ["Device1", "Device2"] } : EntryData)).olarmDevicesFull.map
        Device.deviceName ∧
    (asyncStepUser
      (some { apiKey := "mock_api_key", scanInterval := 8, alarmCode := "1234567890" })
      ApiOutcome.forbidden).coordinators =
      (({ apiKey := "mock_api_key", scanInterval := 8, deviceFirmware := "1.0",
          alarmCode := none, olarmDevices := ["Device1", "Device2"],
          olarmDevicesFull := mockJson, deviceAmount := 2,
          deviceNames := ["Device1", "Device2"] } : EntryData)).olarmDevicesFull.map
        Device.deviceId :=
  C3_setup_takes_all_devices
    { apiKey := "mock_api_key", scanInterval := 8, alarmCode := "1234567890" }
    ApiOutcome.forbidden "Olarm Sensors"
    { apiKey := "mock_api_key", scanInterval := 8, deviceFirmware := "1.0",
      alarmCode := none, olarmDevices := ["Device1", "Device2"],
      olarmDevicesFull := mockJson, deviceAmount := 2,
      deviceNames := ["Device1", "Device2"] }
    (by rfl)

/-- Claim C4 counterexample: a submission with scan interval 5 (a recorded
validation error) and a non-mock key whose enumeration raises
`APIForbiddenError` does not get the setup form back: the step raises
`UnboundLocalError`. -/
theorem C4_validation_error_can_crash :
    validationErrors { apiKey := "realkey2", scanInterval := 5, alarmCode := "1234567890" } ≠ [] ∧
    (asyncStepUser
      (some { apiKey := "realkey2", scanInterval := 5, alarmCode := "1234567890" })
      ApiOutcome.forbidden).result = FlowResult.raiseError "UnboundLocalError" := by
  exact ⟨by decide, by rfl⟩

/-- Claim C4 (amended): on every submission with a recorded validation
error, no entry is created and no coordinator is registered; and unless
the submission reaches the API with a non-mock key and the call raises
`APIForbiddenError` (in which case the step raises `UnboundLocalError`),
the setup form is returned with an error dict that starts with the
recorded validation errors. -/
theorem C4_validation_error_blocks (u : UserInput) (o : ApiOutcome)
    (hv : validationErrors u ≠ []) :
    (∀ t d, (asyncStepUser (some u) o).result ≠ FlowResult.createEntry t d) ∧
    (asyncStepUser (some u) o).coordinators = [] ∧
    (¬(o = ApiOutcome.forbidden ∧ ¬(u.apiKey = "mock_api_key" ∨ u.apiKey = "")) →
      ∃ extra, (asyncStepUser (some u) o).result =
        FlowResult.showForm (validationErrors u ++ extra)) := by
  refine ⟨?_, ?_, ?_⟩
  · intro t d h
    obtain ⟨he, -⟩ := submitStep_createEntry_inv u o t d h
    exact hv he
  · by_cases hk : u.apiKey = "mock_api_key" ∨ u.apiKey = ""
    · show (submitStep u o).coordinators = []
      have hs : submitStep u o = stepWithJson u 0 (validationErrors u) (some mockJson) := by
        simp [submitStep, hk]
      rw [hs]
      exact (stepWithJson_errs_ne u 0 (validationErrors u) (some mockJson) hv).1
    · cases o with
      | forbidden => simp [asyncStepUser, submitStep, hk]
      | ret r =>
        show (submitStep u (ApiOutcome.ret r)).coordinators = []
        have hs : submitStep u (ApiOutcome.ret r) =
            stepWithJson u 1 (validationErrors u) r := by
          simp [submitStep, hk]
        rw [hs]
        exact (stepWithJson_errs_ne u 1 (validationErrors u) r hv).1
  · intro hno
    by_cases hk : u.apiKey = "mock_api_key" ∨ u.apiKey = ""
    · have hs : submitStep u o = stepWithJson u 0 (validationErrors u) (some mockJson) := by
        simp [submitStep, hk]
      show ∃ extra, (submitStep u o).result = FlowResult.showForm (validationErrors u ++ extra)
      rw [hs]
      exact (stepWithJson_errs_ne u 0 (validationErrors u) (some mockJson) hv).2
    · cases o with
      | forbidden => exact absurd ⟨rfl, hk⟩ hno
      | ret r =>
        have hs : submitStep u (ApiOutcome.ret r) =
            stepWithJson u 1 (validationErrors u) r := by
          simp [submitStep, hk]
        show ∃ extra, (submitStep u (ApiOutcome.ret r)).result =
          FlowResult.showForm (validationErrors u ++ extra)
        rw [hs]
        exact (stepWithJson_errs_ne u 1 (validationErrors u) r hv).2

/-- Witness for C4: a submission with an empty API key gets the setup form
back with the recorded validation error, no entry and no coordinator. -/
theorem C4_validation_error_blocks_witness :
    (asyncStepUser (some { apiKey := "", scanInterval := 10, alarmCode := "1" })
      (ApiOutcome.ret none)).coordinators = [] ∧
    (asyncStepUser (some { apiKey := "", scanInterval := 10, alarmCode := "1" })
      (ApiOutcome.ret none)).result =
      FlowResult.showForm
        (validationErrors { apiKey := "", scanInterval := 10, alarmCode := "1" }) :=
  ⟨(C4_validation_error_blocks
      { apiKey := "", scanInterval := 10, alarmCode := "1" }
      (ApiOutcome.ret none) (by decide)).2.1,
   by rfl⟩

/-- Claim C5: every created entry persists exactly the collected
configuration: the submitted API key and scan interval, the alarm code
(`None` for the sentinel `"1234567890"`, the entered string otherwise),
the firmware of the first device of the list the step worked on, the
names of those devices (as both `CONF_OLARM_DEVICES` and
`OLARM_DEVICE_NAMES`), the full device list (`OLARM_DEVICES`) and their
count (`OLARM_DEVICE_AMOUNT`). -/
theorem C5_entry_persists_configuration (u : UserInput) (o : ApiOutcome)
    (t : String) (d : EntryData)
    (h : (asyncStepUser (some u) o).result = FlowResult.createEntry t d) :
    t = "Olarm Sensors" ∧
    d.apiKey = u.apiKey ∧
    d.scanInterval = u.scanInterval ∧
    d.alarmCode = (if u.alarmCode = "1234567890" then none else some u.alarmCode) ∧
    ∃ dev0 rest, usedJson u o = some (dev0 :: rest) ∧
      d.deviceFirmware = dev0.deviceFirmware ∧
      d.olarmDevices = (dev0 :: rest).map Device.deviceName ∧
      d.olarmDevicesFull = dev0 :: rest ∧
      d.deviceAmount = (dev0 :: rest).length ∧
      d.deviceNames = (dev0 :: rest).map Device.deviceName := by
  obtain ⟨he, ht, dev0, rest, hj, hd, hc, ha⟩ := submitStep_createEntry_inv u o t d h
  subst hd
  exact ⟨ht, rfl, rfl, rfl, dev0, rest, hj, rfl, rfl, rfl, rfl, rfl⟩

/-- Witness for C5: the persisted configuration of a concrete non-mock
submission whose enumeration returned one device. -/
theorem C5_entry_persists_configuration_witness :
    "Olarm Sensors" = "Olarm Sensors" ∧
    ({ apiKey := "key5", scanInterval := 11, deviceFirmware := "3.0",
       alarmCode := none, olarmDevices := ["E"],
       olarmDevicesFull := [(⟨"E", "3.0", "id9", "IDS"⟩ : Device)],
       deviceAmount := 1, deviceNames := ["E"] } : EntryData).apiKey = "key5" ∧
    ({ apiKey := "key5", scanInterval := 11, deviceFirmware := "3.0",
       alarmCode := none, olarmDevices := ["E"],
       olarmDevicesFull := [(⟨"E", "3.0", "id9", "IDS"⟩ : Device)],
       deviceAmount := 1, deviceNames := ["E"] } : EntryData).scanInterval = 11 ∧
    ({ apiKey := "key5", scanInterval := 11, deviceFirmware := "3.0",
       alarmCode := none, olarmDevices := ["E"],
       olarmDevicesFull := [(⟨"E", "3.0", "id9", "IDS"⟩ : Device)],
       deviceAmount := 1, deviceNames := ["E"] } : EntryData).alarmCode =
      (if "1234567890" = "1234567890" then none else some "1234567890") ∧
    ∃ dev0 rest,
      usedJson { apiKey := "key5", scanInterval := 11, alarmCode := "1234567890" }
        (ApiOutcome.ret (some [(⟨"E", "3.0", "id9", "IDS"⟩ : Device)])) =
        some (dev0 :: rest) ∧
      ({ apiKey := "key5", scanInterval := 11, deviceFirmware := "3.0",
         alarmCode := none, olarmDevices := ["E"],
         olarmDevicesFull := [(⟨"E", "3.0", "id9", "IDS"⟩ : Device)],
         deviceAmount := 1, deviceNames := ["E"] } : EntryData).deviceFirmware =
        dev0.deviceFirmware ∧
      ({ apiKey := "key5", scanInterval := 11, deviceFirmware := "3.0",
         alarmCode := none, olarmDevices := ["E"],
         olarmDevicesFull := [(⟨"E", "3.0", "id9", "IDS"⟩ : Device)],
         deviceAmount := 1, deviceNames := ["E"] } : EntryData).olarmDevices =
        (dev0 :: rest).map Device.deviceName ∧
      ({ apiKey := "key5", scanInterval := 11, deviceFirmware := "3.0",
         alarmCode := none, olarmDevices := ["E"],
         olarmDevicesFull := [(⟨"E", "3.0", "id9", "IDS"⟩ : Device)],
         deviceAmount := 1, deviceNames := ["E"] } : EntryData).olarmDevicesFull =
        dev0 :: rest ∧
      ({ apiKey := "key5", scanInterval := 11, deviceFirmware := "3.0",
         alarmCode := none, olarmDevices := ["E"],
         olarmDevicesFull := [(⟨"E", "3.0", "id9", "IDS"⟩ : Device)],
         deviceAmount := 1, deviceNames := ["E"] } : EntryData).deviceAmount =
        (dev0 :: rest).length ∧
      ({ apiKey := "key5", scanInterval := 11, deviceFirmware := "3.0",
         alarmCode := none, olarmDevices := ["E"],
         olarmDevicesFull := [(⟨"E", "3.0", "id9", "IDS"⟩ : Device)],
         deviceAmount := 1, deviceNames := ["E"] } : EntryData).deviceNames =
        (dev0 :: rest).map Device.deviceName :=
  C5_entry_persists_configuration
    { apiKey := "key5", scanInterval := 11, alarmCode := "1234567890" }
    (ApiOutcome.ret (some [(⟨"E", "3.0", "id9", "IDS"⟩ : Device)]))
    "Olarm Sensors"
    { apiKey := "key5", scanInterval := 11, deviceFirmware := "3.0",
      alarmCode := none, olarmDevices := ["E"],
      olarmDevicesFull := [(⟨"E", "3.0", "id9", "IDS"⟩ : Device)],
      deviceAmount := 1, deviceNames := ["E"] }
    (by rfl)

/-- Claim C6: the options step keeps every field it does not edit
unchanged (`CONF_DEVICE_FIRMWARE`, `OLARM_DEVICE_NAMES`, `OLARM_DEVICES`)
and rewrites `CONF_API_KEY`, `CONF_SCAN_INTERVAL`, `CONF_ALARM_CODE`,
`CONF_OLARM_DEVICES` and `OLARM_DEVICE_AMOUNT`. -/
theorem C6_options_frame (old : EntryData) (u : OptionsInput) :
    asyncStepInit old (some u) =
      OptionsResult.createEntry "Olarm Sensors" (optionsNewData old u) ∧
    (optionsNewData old u).deviceFirmware = old.deviceFirmware ∧
    (optionsNewData old u).deviceNames = old.deviceNames ∧
    (optionsNewData old u).olarmDevicesFull = old.olarmDevicesFull ∧
    (optionsNewData old u).apiKey = u.apiKey ∧
    (optionsNewData old u).scanInterval = u.scanInterval ∧
    (optionsNewData old u).alarmCode = storeAlarmCode u.alarmCode ∧
    (optionsNewData old u).olarmDevices = u.olarmDevices ∧
    (optionsNewData old u).deviceAmount = old.deviceNames.length :=
  ⟨rfl, rfl, rfl, rfl, rfl, rfl, rfl, rfl, rfl⟩

/-- Claim C7: a submission with a non-mock, non-empty API key performs
exactly one `get_olarm_devices` invocation, whatever the call's outcome
and whatever else the step does afterwards. -/
theorem C7_exactly_one_api_call (u : UserInput) (o : ApiOutcome)
    (h1 : u.apiKey ≠ "mock_api_key") (h2 : u.apiKey ≠ "") :
    (asyncStepUser (some u) o).apiCalls = 1 := by
  have hk : ¬(u.apiKey = "mock_api_key" ∨ u.apiKey = "") := by
    rintro (h | h)
    · exact h1 h
    · exact h2 h
  cases o with
  | forbidden => simp [asyncStepUser, submitStep, hk]
  | ret r =>
    have hs : asyncStepUser (some u) (ApiOutcome.ret r) =
        stepWithJson u 1 (validationErrors u) r := by
      simp [asyncStepUser, submitStep, hk]
    rw [hs]
    exact stepWithJson_apiCalls _ _ _ _

/-- Witness for C7: a concrete non-mock submission whose enumeration
raised made exactly one API call. -/
theorem C7_exactly_one_api_call_witness :
    (asyncStepUser (some { apiKey := "key7", scanInterval := 8, alarmCode := "0" })
      ApiOutcome.forbidden).apiCalls = 1 :=
  C7_exactly_one_api_call
    { apiKey := "key7", scanInterval := 8, alarmCode := "0" }
    ApiOutcome.forbidden (by decide) (by decide)

/-- Claim C8: every entry data produced by either flow step satisfies
`OLARM_DEVICE_AMOUNT = len(OLARM_DEVICE_NAMES)`; the setup step
establishes it from the enumeration result, and the options step
re-establishes it by recomputing the amount from the preserved name list,
independently of the user's device selection. -/
theorem C8_amount_matches_names (u : UserInput) (o : ApiOutcome)
    (t : String) (d : EntryData) (old : EntryData) (inp : OptionsInput)
    (h : (asyncStepUser (some u) o).result = FlowResult.createEntry t d) :
    d.deviceAmount = d.deviceNames.length ∧
    (optionsNewData old inp).deviceAmount = (optionsNewData old inp).deviceNames.length ∧
    (optionsNewData old inp).deviceAmount = old.deviceNames.length := by
  obtain ⟨he, ht, dev0, rest, hj, hd, hc, ha⟩ := submitStep_createEntry_inv u o t d h
  subst hd
  exact ⟨by simp [setupEntryData], rfl, rfl⟩

/-- Witness for C8: the invariant at a concrete mock-key submission and a
concrete options edit whose selection is smaller than the name list. -/
theorem C8_amount_matches_names_witness :
    ({ apiKey := "mock_api_key", scanInterval := 8, deviceFirmware := "1.0",
       alarmCode := none, olarmDevices := ["Device1", "Device2"],
       olarmDevicesFull := mockJson, deviceAmount := 2,
       deviceNames := ["Device1", "Device2"] } : EntryData).deviceAmount =
      ({ apiKey := "mock_api_key", scanInterval := 8, deviceFirmware := "1.0",
         alarmCode := none, olarmDevices := ["Device1", "Device2"],
         olarmDevicesFull := mockJson, deviceAmount := 2,
         deviceNames := ["Device1", "Device2"] } : EntryData).deviceNames.length ∧
    (optionsNewData
        { apiKey := "mock_api_key", scanInterval := 8, deviceFirmware := "1.0",
          alarmCode := none, olarmDevices := ["Device1", "Device2"],
          olarmDevicesFull := mockJson, deviceAmount := 2,
          deviceNames := ["Device1", "Device2"] }
        { apiKey := "x", scanInterval := 9, alarmCode := "1",
          olarmDevices := ["Device1"] }).deviceAmount =
      (optionsNewData
        { apiKey := "mock_api_key", scanInterval := 8, deviceFirmware := "1.0",
          alarmCode := none, olarmDevices := ["Device1", "Device2"],
          olarmDevicesFull := mockJson, deviceAmount := 2,
          deviceNames := ["Device1", "Device2"] }
        { apiKey := "x", scanInterval := 9, alarmCode := "1",
          olarmDevices := ["Device1"] }).deviceNames.length ∧
    (optionsNewData
        { apiKey := "mock_api_key", scanInterval := 8, deviceFirmware := "1.0",
          alarmCode := none, olarmDevices := ["Device1", "Device2"],
          olarmDevicesFull := mockJson, deviceAmount := 2,
          deviceNames := ["Device1", "Device2"] }
        { apiKey := "x", scanInterval := 9, alarmCode := "1",
          olarmDevices := ["Device1"] }).deviceAmount =
      ({ apiKey := "mock_api_key", scanInterval := 8, deviceFirmware := "1.0",
         alarmCode := none, olarmDevices := ["Device1", "Device2"],
         olarmDevicesFull := mockJson, deviceAmount := 2,
         deviceNames := ["Device1", "Device2"] } : EntryData).deviceNames.length :=
  C8_amount_matches_names
    { apiKey := "mock_api_key", scanInterval := 8, alarmCode := "1234567890" }
    (ApiOutcome.ret none) "Olarm Sensors"
    { apiKey := "mock_api_key", scanInterval := 8, deviceFirmware := "1.0",
      alarmCode := none, olarmDevices := ["Device1", "Device2"],
      olarmDevicesFull := mockJson, deviceAmount := 2,
      deviceNames := ["Device1", "Device2"] }
    { apiKey := "mock_api_key", scanInterval := 8, deviceFirmware := "1.0",
      alarmCode := none, olarmDevices := ["Device1", "Device2"],
      olarmDevicesFull := mockJson, deviceAmount := 2,
      deviceNames := ["Device1", "Device2"] }
    { apiKey := "x", scanInterval := 9, alarmCode := "1", olarmDevices := ["Device1"] }
    (by rfl)

/-- Claim C9: the stored alarm code is `None` exactly when the submitted
code is the sentinel `"1234567890"` (both steps store through the same
branch); the options form maps a stored `None` back to the default
`"1234567890"`; and resubmitting the displayed default leaves the stored
code unchanged for every stored value the flows can produce (no flow ever
stores the sentinel itself). -/
theorem C9_alarm_code_roundtrip (stored : Option String) (c : String)
    (u : UserInput) (o : ApiOutcome) (t : String) (d : EntryData)
    (old : EntryData) (inp : OptionsInput)
    (hs : stored ≠ some "1234567890")
    (h : (asyncStepUser (some u) o).result = FlowResult.createEntry t d) :
    (storeAlarmCode c = none ↔ c = "1234567890") ∧
    optionsAlarmDefault none = "1234567890" ∧
    storeAlarmCode (optionsAlarmDefault stored) = stored ∧
    d.alarmCode = storeAlarmCode u.alarmCode ∧
    d.alarmCode ≠ some "1234567890" ∧
    (optionsNewData old inp).alarmCode = storeAlarmCode inp.alarmCode ∧
    (optionsNewData old inp).alarmCode ≠ some "1234567890" := by
  obtain ⟨he, ht, dev0, rest, hj, hd, hc, ha⟩ := submitStep_createEntry_inv u o t d h
  subst hd
  refine ⟨?_, rfl, ?_, rfl, storeAlarmCode_ne_sentinel _, rfl,
    storeAlarmCode_ne_sentinel _⟩
  · unfold storeAlarmCode
    by_cases hc9 : c = "1234567890" <;> simp [hc9]
  · cases stored with
    | none => rfl
    | some s =>
      have hss : s ≠ "1234567890" := fun hx => hs (by rw [hx])
      simp [optionsAlarmDefault, storeAlarmCode, hss]

/-- Witness for C9: the sentinel round trip at a stored code `"55"`, a
submitted code `"77"`, a concrete successful setup submission and a
concrete options edit. -/
theorem C9_alarm_code_roundtrip_witness :
    storeAlarmCode (optionsAlarmDefault (some "55")) = some "55" ∧
    (storeAlarmCode "77" = none ↔ "77" = "1234567890") ∧
    optionsAlarmDefault none = "1234567890" := by
  have h9 := C9_alarm_code_roundtrip (some "55") "77"
    { apiKey := "mock_api_key", scanInterval := 12, alarmCode := "1234567890" }
    (ApiOutcome.ret none) "Olarm Sensors"
    { apiKey := "mock_api_key", scanInterval := 12, deviceFirmware := "1.0",
      alarmCode := none, olarmDevices := ["Device1", "Device2"],
      olarmDevicesFull := mockJson, deviceAmount := 2,
      deviceNames := ["Device1", "Device2"] }
    { apiKey := "z", scanInterval := 15, deviceFirmware := "9", alarmCode := none,
      olarmDevices := [], olarmDevicesFull := [], deviceAmount := 0,
      deviceNames := [] }
    { apiKey := "z", scanInterval := 15, alarmCode := "2", olarmDevices := [] }
    (by decide) (by rfl)
  exact ⟨h9.2.2.1, h9.1, h9.2.1⟩

/-- Claim C10 counterexample: a submission that passes validation and
whose enumeration succeeds with zero devices reaches the index-0 access
`json[0]["deviceFirmware"]` with an empty list, and the step raises
`IndexError`: the indexed read is not in bounds there. -/
theorem C10_empty_enumeration_raises :
    validationErrors { apiKey := "realkey3", scanInterval := 12, alarmCode := "1234567890" } = [] ∧
    (asyncStepUser
      (some { apiKey := "realkey3", scanInterval := 12, alarmCode := "1234567890" })
      (ApiOutcome.ret (some []))).result = FlowResult.raiseError "IndexError" := by
  exact ⟨by rfl, by rfl⟩

/-- Claim C10 (amended): the index-0 access is in bounds only because entry
creation is reached only with a non-empty device list; a validated
submission whose enumeration succeeds with zero devices takes no error
branch and raises `IndexError` at the index-0 access instead of creating
an entry. -/
theorem C10_entry_needs_nonempty_list (u : UserInput) (o : ApiOutcome) :
    (∀ t d, (asyncStepUser (some u) o).result = FlowResult.createEntry t d →
      d.olarmDevicesFull ≠ []) ∧
    (validationErrors u = [] → usedJson u o = some [] →
      (asyncStepUser (some u) o).result = FlowResult.raiseError "IndexError") := by
  constructor
  · intro t d h
    obtain ⟨he, ht, dev0, rest, hj, hd, hc, ha⟩ := submitStep_createEntry_inv u o t d h
    subst hd
    simp [setupEntryData]
  · intro hv hj
    by_cases hk : u.apiKey = "mock_api_key" ∨ u.apiKey = ""
    · exfalso
      have : some mockJson = some ([] : List Device) := by
        rw [← hj]; simp [usedJson, hk]
      simp [mockJson] at this
    · cases o with
      | forbidden => simp [usedJson, hk] at hj
      | ret r =>
        cases r with
        | none => simp [usedJson, hk] at hj
        | some l =>
          have hl : l = [] := by simpa [usedJson, hk] using hj
          subst hl
          show (submitStep u (ApiOutcome.ret (some []))).result =
            FlowResult.raiseError "IndexError"
          simp [submitStep, hk, stepWithJson, hv]

/-- Witness for C10: the empty-enumeration path at a concrete validated
submission raises `IndexError`. -/
theorem C10_entry_needs_nonempty_list_witness :
    (asyncStepUser
      (some { apiKey := "realkey4", scanInterval := 12, alarmCode := "1234567890" })
      (ApiOutcome.ret (some []))).result = FlowResult.raiseError "IndexError" :=
  (C10_entry_needs_nonempty_list
    { apiKey := "realkey4", scanInterval := 12, alarmCode := "1234567890" }
    (ApiOutcome.ret (some []))).2 (by rfl) (by rfl)

end Olarm
